import Mathlib

/-!
Verification of the `DiscreteContactCheckTask` node from
`tesseract_task_composer/src/nodes/discrete_contact_check_task.cpp`.

The node is shallowly embedded: its data model (task node, execution
context, result report, profiles) becomes Lean structures, and the
member functions (`runImpl`, the constructors, the equality operators)
become Lean functions translated from the source.  Parts of the
repository that the source file calls but that are not present in the
extract (the `TaskComposerTask` base class, `getProfileString`,
`getProfile`, `applyProfileOverrides`) are modelled from the
specification and marked as such in their doc comments.
-/

set_option maxHeartbeats 1000000

namespace TesseractPlanning

/-- One contact record reported by the external validator: the pair of
link names and the signed distance.  The node never computes with the
distance, it only stores it, so a rational stands in for the C++
double. -/
structure ContactResult where
  link0 : String
  link1 : String
  distance : ℚ
  deriving DecidableEq, Repr

/-- A per-sample contact map: link pair keyed lists of contact records
(`tesseract_collision::ContactResultMap`).  The node treats it as
opaque payload. -/
abbrev ContactResultMap : Type := List ((String × String) × List ContactResult)

/-- The contact-check configuration carried by a profile
(`ContactCheckProfile::config`).  The node forwards it to the contact
manager and the validator without inspecting it; two representative
fields keep it concrete. -/
structure ContactCheckConfig where
  contact_manager_config : String
  longest_valid_segment_length : ℚ
  deriving DecidableEq, Repr

/-- `tesseract_planning::ContactCheckProfile`.  A default-constructed
value is what `getProfile` falls back to for an unknown name. -/
structure ContactCheckProfile where
  config : ContactCheckConfig
  deriving DecidableEq, Repr

/-- The default-constructed `ContactCheckProfile`
(`std::make_shared<ContactCheckProfile>()`). -/
def ContactCheckProfile.default : ContactCheckProfile :=
  { config := { contact_manager_config := "", longest_valid_segment_length := 1/20 } }

/-- `tesseract_planning::CompositeInstruction`, reduced to the fields
the node reads: the declared profile name, the optional per-instruction
profile override function, and the description used in the failure
message. -/
structure CompositeInstruction where
  profile : String
  profile_overrides : Option (ContactCheckProfile → ContactCheckProfile)
  description : String

/-- A value held in the shared data store
(`tesseract_common::AnyPoly`): null, a composite instruction, or a
value of some other type (identified by its type name). -/
inductive DataValue where
  | null : DataValue
  | composite (ci : CompositeInstruction) : DataValue
  | other (typeName : String) : DataValue

/-- `AnyPoly::isNull`. -/
def DataValue.isNull : DataValue → Bool
  | .null => true
  | _ => false

/-- The type guard of `runImpl`:
`getType() == std::type_index(typeid(CompositeInstruction))`. -/
def DataValue.isComposite : DataValue → Bool
  | .composite _ => true
  | _ => false

/-- The profile-name remapping table
(`input.problem.composite_profile_remapping`): entries keyed by
(task name, profile name) mapping to a replacement profile name. -/
abbrev RemapTable : Type := List ((String × String) × String)

/-- The profile registry (`input.profiles`): entries keyed by
(task namespace, profile name). -/
abbrev Registry : Type := List ((String × String) × ContactCheckProfile)

/-- Lookup in the remapping table. -/
def remapLookup (nodeName profileName : String) (remap : RemapTable) : Option String :=
  (remap.find? (fun e => e.1 = (nodeName, profileName))).map (·.2)

/-- Lookup in the profile registry. -/
def regLookup (nodeName profileName : String) (registry : Registry) :
    Option ContactCheckProfile :=
  (registry.find? (fun e => e.1 = (nodeName, profileName))).map (·.2)

/-- The library-wide default profile name used when an instruction
declares no profile. -/
def defaultProfileName : String := "DEFAULT"

/-- Modelled from the spec: `getProfileString` from
`tesseract_motion_planners/planner_utils.h` is not in the extract.
Per §4.2 steps 1–2: an empty declared name is replaced by the
library-wide default name, then one (non-recursive) level of remapping
is applied. -/
def getProfileString (nodeName declared : String) (remap : RemapTable) : String :=
  let p := if declared = "" then defaultProfileName else declared
  match remapLookup nodeName p remap with
  | some mapped => mapped
  | none => p

/-- Modelled from the spec: `getProfile` from
`tesseract_motion_planners/planner_utils.h` is not in the extract.
Per §4.2 step 3: look the (possibly remapped) name up in the registry
and fall back to the supplied default-constructed profile instead of
failing. -/
def getProfile (nodeName profileName : String) (registry : Registry)
    (dflt : ContactCheckProfile) : ContactCheckProfile :=
  match regLookup nodeName profileName registry with
  | some p => p
  | none => dflt

/-- Modelled from the spec: `applyProfileOverrides` is not in the
extract.  Per §4.2 step 4: when the instruction carries an override
function it is applied to a copy of the base profile, producing a new
effective profile; otherwise the base profile is used as is. -/
def applyProfileOverrides (profile : ContactCheckProfile)
    (overrides : Option (ContactCheckProfile → ContactCheckProfile)) :
    ContactCheckProfile :=
  match overrides with
  | some f => f profile
  | none => profile

/-- Modelled from the spec: the full §4.2 resolution chain
`resolve(nodeName, declaredProfileName, remappingTable, profileRegistry,
overrideFn)` with the registry threaded through explicitly as state, so
that the copy-then-override contract (the registry is never mutated) is
visible in the result. -/
def resolveS (nodeName declared : String) (remap : RemapTable)
    (registry : Registry)
    (overrides : Option (ContactCheckProfile → ContactCheckProfile)) :
    ContactCheckProfile × Registry :=
  let key := getProfileString nodeName declared remap
  let base := getProfile nodeName key registry ContactCheckProfile.default
  let eff := applyProfileOverrides base overrides
  (eff, registry)

/-- The task node.  Modelled from the spec for the base-class part:
`TaskComposerTask` is not in the extract; per §3 a node carries its
name, the conditional flag and the ordered input keys. -/
structure DiscreteContactCheckTask where
  name : String
  is_conditional : Bool
  input_keys : List String
  deriving DecidableEq, Repr

namespace DiscreteContactCheckTask

/-- The default constructor
`DiscreteContactCheckTask() : TaskComposerTask("DiscreteContactCheckTask", true)`.
It adds no input key. -/
def default : DiscreteContactCheckTask :=
  { name := "DiscreteContactCheckTask", is_conditional := true, input_keys := [] }

/-- The direct constructor
`DiscreteContactCheckTask(name, input_key, is_conditional)`: stores the
single input key. -/
def mkDirect (name input_key : String) (is_conditional : Bool) :
    DiscreteContactCheckTask :=
  { name := name, is_conditional := is_conditional, input_keys := [input_key] }

end DiscreteContactCheckTask

/-- The declarative configuration consumed by the config constructor.
Modelled from the spec for the base-class parsing: per §6 it supplies
the conditional flag and the `inputs` key sequence, which base-class
parsing copies into `input_keys`. -/
structure TaskConfig where
  conditional : Bool
  inputs : List String
  deriving DecidableEq, Repr

namespace DiscreteContactCheckTask

/-- The config constructor
`DiscreteContactCheckTask(name, config, plugin_factory)`.  Base-class
parsing populates `input_keys` from `config.inputs` (modelled from the
spec), then the two shape checks of lines 56–61 run: empty inputs and
more than one input are configuration errors thrown as
`std::runtime_error`; here they become `Except.error`. -/
def fromConfig (name : String) (config : TaskConfig) :
    Except String DiscreteContactCheckTask :=
  let base : DiscreteContactCheckTask :=
    { name := name, is_conditional := config.conditional, input_keys := config.inputs }
  if base.input_keys.isEmpty then
    .error "DiscreteContactCheckTask, config missing 'inputs' entry"
  else if base.input_keys.length > 1 then
    .error "DiscreteContactCheckTask, config 'inputs' entry currently only supports one input key"
  else
    .ok base

end DiscreteContactCheckTask

/-- The execution context (`TaskComposerInput`), reduced to the parts
`runImpl` reads: the abort flag, the keyed data store, the remapping
table, the profile registry, and the environment handle that is copied
into the report. -/
structure TaskComposerInput where
  aborted : Bool
  data_storage : String → DataValue
  composite_profile_remapping : RemapTable
  profiles : Registry
  env : String

/-- The base-class part of the report (`TaskComposerNodeInfo`).
Modelled from the spec for the exact field set: per §3 a report carries
the owning node's identity, the return value, the message, the elapsed
time and the environment snapshot.  `elapsed_time = none` models the
timer never having been read on a path (the abort path). -/
structure TaskComposerNodeInfo where
  name : String
  return_value : Int
  message : String
  elapsed_time : Option ℚ
  env : String
  deriving DecidableEq, Repr

/-- `DiscreteContactCheckTaskInfo`: the base report plus the
per-sample contact payload. -/
structure DiscreteContactCheckTaskInfo extends TaskComposerNodeInfo where
  contact_results : List ContactResultMap

/-- The external validator (`contactCheckProgram`): given the
composite instruction and the resolved configuration it returns the
"any contact" boolean together with the per-sample contact data it
filled in. -/
abbrev Validator : Type :=
  CompositeInstruction → ContactCheckConfig → Bool × List ContactResultMap

namespace DiscreteContactCheckTask

/-- The profile resolution performed inside `runImpl` (lines 93–98):
declared profile name from the instruction, remapping via
`getProfileString`, registry lookup via `getProfile` with a
default-constructed fallback, then `applyProfileOverrides`. -/
def resolveProfile (task : DiscreteContactCheckTask) (input : TaskComposerInput)
    (ci : CompositeInstruction) : ContactCheckProfile :=
  let profile := getProfileString task.name ci.profile input.composite_profile_remapping
  let cur := getProfile task.name profile input.profiles ContactCheckProfile.default
  applyProfileOverrides cur ci.profile_overrides

/-- `DiscreteContactCheckTask::runImpl`.  The wall clock is abstracted
by the `elapsedSeconds` argument: the value the timer would deliver
when read at the end of the invocation.  The external validator is a
parameter.  The function is total — every outcome, including abort and
invalid input, is delivered as a report, never as an exception. -/
def runImpl (task : DiscreteContactCheckTask) (input : TaskComposerInput)
    (validator : Validator) (elapsedSeconds : ℚ) :
    DiscreteContactCheckTaskInfo :=
  let info : DiscreteContactCheckTaskInfo :=
    { name := task.name, return_value := 0, message := "",
      elapsed_time := none, env := input.env, contact_results := [] }
  if input.aborted then
    { info with message := "Aborted" }
  else
    let input_data_poly := input.data_storage (task.input_keys.getD 0 "")
    if input_data_poly.isNull || !input_data_poly.isComposite then
      { info with
        message := "Input seed to DiscreteContactCheckTask must be a composite instruction",
        elapsed_time := some elapsedSeconds }
    else
      match input_data_poly with
      | .composite ci =>
        let cur_composite_profile := task.resolveProfile input ci
        let result := validator ci cur_composite_profile.config
        if result.1 then
          { info with
            message := "Results are not contact free for process input: " ++ ci.description,
            contact_results := result.2,
            elapsed_time := some elapsedSeconds }
        else
          { info with
            message := "Discrete contact check succeeded",
            return_value := 1,
            elapsed_time := some elapsedSeconds }
      | _ =>
        { info with
          message := "Input seed to DiscreteContactCheckTask must be a composite instruction",
          elapsed_time := some elapsedSeconds }

/-- `DiscreteContactCheckTask::operator==` (line 132): delegates to the
base-class comparison, which (modelled from the spec, §3) compares
name, conditional flag and input keys. -/
def beq (a b : DiscreteContactCheckTask) : Bool :=
  a.name == b.name && a.is_conditional == b.is_conditional &&
    a.input_keys == b.input_keys

/-- `DiscreteContactCheckTask::operator!=`: the negation of
`operator==`. -/
def bne (a b : DiscreteContactCheckTask) : Bool := !(beq a b)

end DiscreteContactCheckTask

namespace DiscreteContactCheckTaskInfo

/-- `TaskComposerNodeInfo::operator==`, modelled from the spec (§3):
the base report compares its own fields. -/
def baseBeq (a b : TaskComposerNodeInfo) : Bool :=
  a.name == b.name && a.return_value == b.return_value &&
    a.message == b.message &&
    decide (a.elapsed_time = b.elapsed_time) && a.env == b.env

/-- `DiscreteContactCheckTaskInfo::operator==` (line 156): delegates to
the base comparison only; the `contact_results` comparison is commented
out in the source. -/
def beq (a b : DiscreteContactCheckTaskInfo) : Bool :=
  baseBeq a.toTaskComposerNodeInfo b.toTaskComposerNodeInfo

/-- `DiscreteContactCheckTaskInfo::operator!=`. -/
def bne (a b : DiscreteContactCheckTaskInfo) : Bool := !(beq a b)

end DiscreteContactCheckTaskInfo

/-! ### Concrete sample data used by the witness theorems -/

/-- A concrete composite instruction. -/
def sampleCI : CompositeInstruction :=
  { profile := "p", profile_overrides := none, description := "traj" }

/-- A concrete data store binding key "k" to the sample instruction. -/
def sampleStore : String → DataValue :=
  fun k => if k = "k" then .composite sampleCI else .null

/-- A concrete data store binding key "k" to a value of the wrong
type. -/
def badStore : String → DataValue :=
  fun k => if k = "k" then .other "JointWaypoint" else .null

/-- A validator reporting no contact. -/
def cleanValidator : Validator := fun _ _ => (false, [])

/-- Per-sample contact data with one contact at sample index 2
between links "L1" and "L2" at distance -0.01. -/
def dirtyContacts : List ContactResultMap :=
  [[], [], [(("L1", "L2"), [{ link0 := "L1", link1 := "L2", distance := -1/100 }])]]

/-- A validator reporting a contact together with `dirtyContacts`. -/
def dirtyValidator : Validator := fun _ _ => (true, dirtyContacts)

/-- A concrete task with the single input key "k". -/
def sampleTask : DiscreteContactCheckTask :=
  DiscreteContactCheckTask.mkDirect "t" "k" true

/-- A concrete non-aborted context binding "k" to the sample
instruction. -/
def sampleInput : TaskComposerInput :=
  { aborted := false, data_storage := sampleStore,
    composite_profile_remapping := [], profiles := [], env := "env0" }

/-- The sample context with the abort flag raised. -/
def sampleInputAborted : TaskComposerInput :=
  { sampleInput with aborted := true }

/-- A concrete profile override that rewrites the contact-manager
configuration string. -/
def sampleOverride : ContactCheckProfile → ContactCheckProfile :=
  fun p => { p with config := { p.config with contact_manager_config := "override" } }

/-- A concrete registry holding one profile for (task "t", profile
"p"). -/
def sampleRegistry : Registry :=
  [(("t", "p"), { config := { contact_manager_config := "base",
                              longest_valid_segment_length := 1/10 } })]

/-- A concrete base report. -/
def sampleInfoBase : TaskComposerNodeInfo :=
  { name := "t", return_value := 0, message := "m", elapsed_time := some 1,
    env := "env0" }

/-- A concrete report with an empty contact payload. -/
def sampleInfoA : DiscreteContactCheckTaskInfo :=
  { toTaskComposerNodeInfo := sampleInfoBase, contact_results := [] }

/-- A concrete report with the same base fields as `sampleInfoA` but a
non-empty contact payload. -/
def sampleInfoB : DiscreteContactCheckTaskInfo :=
  { toTaskComposerNodeInfo := sampleInfoBase, contact_results := dirtyContacts }

end TesseractPlanning

namespace TesseractPlanning

/-! ## Claim theorems -/

/-- C1: if the context's abort flag is set, `runImpl` returns a report
with message exactly "Aborted" and return value 0, its elapsed time is
undefined (the timer is never read), and the result is the same for
every data store and every validator — the store is never read and the
validator is never invoked. -/
theorem runImpl_aborted (task : DiscreteContactCheckTask)
    (input : TaskComposerInput) (store1 store2 : String → DataValue)
    (v1 v2 : Validator) (e1 e2 : ℚ) (h : input.aborted = true) :
    (task.runImpl { input with data_storage := store1 } v1 e1).message = "Aborted" ∧
    (task.runImpl { input with data_storage := store1 } v1 e1).return_value = 0 ∧
    (task.runImpl { input with data_storage := store1 } v1 e1).elapsed_time = none ∧
    task.runImpl { input with data_storage := store1 } v1 e1 =
      task.runImpl { input with data_storage := store2 } v2 e2 := by
  simp [DiscreteContactCheckTask.runImpl, h]

/-- C1 witness: the aborted sample context, under two different stores
and validators. -/
theorem runImpl_aborted_witness :
    sampleInputAborted.aborted = true ∧
    ((sampleTask.runImpl { sampleInputAborted with data_storage := sampleStore }
        cleanValidator 1).message = "Aborted" ∧
     (sampleTask.runImpl { sampleInputAborted with data_storage := sampleStore }
        cleanValidator 1).return_value = 0 ∧
     (sampleTask.runImpl { sampleInputAborted with data_storage := sampleStore }
        cleanValidator 1).elapsed_time = none ∧
     sampleTask.runImpl { sampleInputAborted with data_storage := sampleStore }
        cleanValidator 1 =
       sampleTask.runImpl { sampleInputAborted with data_storage := badStore }
        dirtyValidator 2) :=
  ⟨rfl, runImpl_aborted sampleTask sampleInputAborted sampleStore badStore
    cleanValidator dirtyValidator 1 2 rfl⟩

/-- C2: with the abort flag clear, if the value bound to the first
input key is null or not a composite instruction, `runImpl` returns
return value 0, a message naming the expected type ("composite
instruction"), and a recorded elapsed time; the failure is delivered as
a report (the function is total), never thrown. -/
theorem runImpl_invalid_input (task : DiscreteContactCheckTask)
    (input : TaskComposerInput) (v : Validator) (e : ℚ)
    (hab : input.aborted = false)
    (hbad : (input.data_storage (task.input_keys.getD 0 "")).isNull = true ∨
      (input.data_storage (task.input_keys.getD 0 "")).isComposite = false) :
    (task.runImpl input v e).return_value = 0 ∧
    (task.runImpl input v e).message =
      "Input seed to DiscreteContactCheckTask must be a composite instruction" ∧
    (∃ pre post, (task.runImpl input v e).message =
      pre ++ "composite instruction" ++ post) ∧
    (task.runImpl input v e).elapsed_time = some e := by
  rcases hbad with hb | hb <;>
    simp only [List.getD_eq_getElem?_getD] at hb <;>
    refine ⟨?_, ?_, ⟨"Input seed to DiscreteContactCheckTask must be a ", "", ?_⟩, ?_⟩ <;>
    simp [DiscreteContactCheckTask.runImpl, hab, hb]

/-- C2 witness: the sample context with the store binding "k" to a
value of the wrong type. -/
theorem runImpl_invalid_input_witness :
    (({ sampleInput with data_storage := badStore } : TaskComposerInput).aborted = false ∧
     (({ sampleInput with data_storage := badStore } : TaskComposerInput).data_storage
        (sampleTask.input_keys.getD 0 "")).isComposite = false) ∧
    ((sampleTask.runImpl { sampleInput with data_storage := badStore }
        cleanValidator 2).return_value = 0 ∧
     (sampleTask.runImpl { sampleInput with data_storage := badStore }
        cleanValidator 2).message =
       "Input seed to DiscreteContactCheckTask must be a composite instruction" ∧
     (∃ pre post, (sampleTask.runImpl { sampleInput with data_storage := badStore }
        cleanValidator 2).message = pre ++ "composite instruction" ++ post) ∧
     (sampleTask.runImpl { sampleInput with data_storage := badStore }
        cleanValidator 2).elapsed_time = some 2) :=
  ⟨⟨rfl, by decide⟩,
    runImpl_invalid_input sampleTask { sampleInput with data_storage := badStore }
      cleanValidator 2 rfl (Or.inr (by decide))⟩

end TesseractPlanning

namespace TesseractPlanning

/-- C3 counterexample: in the exact scenario the claim describes
(abort flag clear, valid composite-instruction input, validator
reporting no contact) the report's message is not equal to
"succeeded" — the code sets it to "Discrete contact check
succeeded". -/
theorem runImpl_success_message_counterexample :
    sampleInput.aborted = false ∧
    sampleInput.data_storage (sampleTask.input_keys.getD 0 "") = .composite sampleCI ∧
    (cleanValidator sampleCI (sampleTask.resolveProfile sampleInput sampleCI).config).1 = false ∧
    (sampleTask.runImpl sampleInput cleanValidator 1).return_value = 1 ∧
    (sampleTask.runImpl sampleInput cleanValidator 1).message ≠ "succeeded" := by
  refine ⟨rfl, rfl, by decide, by decide, by decide⟩

/-- C3 amended: with the abort flag clear, a valid composite
instruction bound to the first input key, and the validator reporting
no contact, `runImpl` returns return value 1, the message
"Discrete contact check succeeded" (which contains "succeeded" but is
not equal to it), an empty contact payload, and a recorded elapsed
time. -/
theorem runImpl_success (task : DiscreteContactCheckTask)
    (input : TaskComposerInput) (ci : CompositeInstruction)
    (v : Validator) (e : ℚ)
    (hab : input.aborted = false)
    (hdata : input.data_storage (task.input_keys.getD 0 "") = .composite ci)
    (hclean : (v ci (task.resolveProfile input ci).config).1 = false) :
    (task.runImpl input v e).return_value = 1 ∧
    (task.runImpl input v e).message = "Discrete contact check succeeded" ∧
    (∃ pre post, (task.runImpl input v e).message = pre ++ "succeeded" ++ post) ∧
    (task.runImpl input v e).contact_results = [] ∧
    (task.runImpl input v e).elapsed_time = some e := by
  simp only [List.getD_eq_getElem?_getD] at hdata
  refine ⟨?_, ?_, ⟨"Discrete contact check ", "", ?_⟩, ?_, ?_⟩ <;>
    simp [DiscreteContactCheckTask.runImpl, hab, hdata, hclean, DataValue.isNull,
      DataValue.isComposite]

/-- C3 witness: the sample context with the clean validator. -/
theorem runImpl_success_witness :
    (sampleInput.aborted = false ∧
     sampleInput.data_storage (sampleTask.input_keys.getD 0 "") = .composite sampleCI ∧
     (cleanValidator sampleCI (sampleTask.resolveProfile sampleInput sampleCI).config).1 = false) ∧
    ((sampleTask.runImpl sampleInput cleanValidator 3).return_value = 1 ∧
     (sampleTask.runImpl sampleInput cleanValidator 3).message =
       "Discrete contact check succeeded" ∧
     (∃ pre post, (sampleTask.runImpl sampleInput cleanValidator 3).message =
       pre ++ "succeeded" ++ post) ∧
     (sampleTask.runImpl sampleInput cleanValidator 3).contact_results = [] ∧
     (sampleTask.runImpl sampleInput cleanValidator 3).elapsed_time = some 3) :=
  ⟨⟨rfl, rfl, by decide⟩,
    runImpl_success sampleTask sampleInput sampleCI cleanValidator 3
      rfl rfl (by decide)⟩

/-- C4: with the abort flag clear, a valid composite instruction bound
to the first input key, and the validator reporting a contact,
`runImpl` returns return value 0, a message describing non-clearance
(containing "not contact free"), the validator's per-sample contact
data as the payload, and a recorded elapsed time. -/
theorem runImpl_contact (task : DiscreteContactCheckTask)
    (input : TaskComposerInput) (ci : CompositeInstruction)
    (v : Validator) (e : ℚ)
    (hab : input.aborted = false)
    (hdata : input.data_storage (task.input_keys.getD 0 "") = .composite ci)
    (hdirty : (v ci (task.resolveProfile input ci).config).1 = true) :
    (task.runImpl input v e).return_value = 0 ∧
    (task.runImpl input v e).message =
      "Results are not contact free for process input: " ++ ci.description ∧
    (∃ pre post, (task.runImpl input v e).message =
      pre ++ "not contact free" ++ post) ∧
    (task.runImpl input v e).contact_results =
      (v ci (task.resolveProfile input ci).config).2 ∧
    (task.runImpl input v e).elapsed_time = some e := by
  simp only [List.getD_eq_getElem?_getD] at hdata
  have hmsg : (task.runImpl input v e).message =
      "Results are not contact free for process input: " ++ ci.description := by
    simp [DiscreteContactCheckTask.runImpl, hab, hdata, hdirty, DataValue.isNull,
      DataValue.isComposite]
  refine ⟨?_, hmsg, ⟨"Results are ", " for process input: " ++ ci.description, ?_⟩, ?_, ?_⟩
  · simp [DiscreteContactCheckTask.runImpl, hab, hdata, hdirty, DataValue.isNull,
      DataValue.isComposite]
  · rw [hmsg, ← String.append_assoc]
    rfl
  · simp [DiscreteContactCheckTask.runImpl, hab, hdata, hdirty, DataValue.isNull,
      DataValue.isComposite]
  · simp [DiscreteContactCheckTask.runImpl, hab, hdata, hdirty, DataValue.isNull,
      DataValue.isComposite]

/-- C4 witness: the sample context with the validator that reports one
contact at sample index 2 between links "L1" and "L2" at distance
-0.01; the payload is exactly that contact data. -/
theorem runImpl_contact_witness :
    (sampleInput.aborted = false ∧
     sampleInput.data_storage (sampleTask.input_keys.getD 0 "") = .composite sampleCI ∧
     (dirtyValidator sampleCI (sampleTask.resolveProfile sampleInput sampleCI).config).1 = true) ∧
    ((sampleTask.runImpl sampleInput dirtyValidator 4).return_value = 0 ∧
     (sampleTask.runImpl sampleInput dirtyValidator 4).message =
       "Results are not contact free for process input: " ++ sampleCI.description ∧
     (∃ pre post, (sampleTask.runImpl sampleInput dirtyValidator 4).message =
       pre ++ "not contact free" ++ post) ∧
     (sampleTask.runImpl sampleInput dirtyValidator 4).contact_results =
       (dirtyValidator sampleCI (sampleTask.resolveProfile sampleInput sampleCI).config).2 ∧
     (sampleTask.runImpl sampleInput dirtyValidator 4).elapsed_time = some 4) :=
  ⟨⟨rfl, rfl, by decide⟩,
    runImpl_contact sampleTask sampleInput sampleCI dirtyValidator 4
      rfl rfl (by decide)⟩

end TesseractPlanning

namespace TesseractPlanning

/-- C5: construction from a declarative configuration fails with the
"missing 'inputs' entry" configuration error when the parsed input
keys are empty, fails with the "only supports one input key"
configuration error when there is more than one, and succeeds with
exactly one key. -/
theorem fromConfig_spec (name : String) (config : TaskConfig) :
    (config.inputs = [] →
      DiscreteContactCheckTask.fromConfig name config =
        .error "DiscreteContactCheckTask, config missing 'inputs' entry") ∧
    (1 < config.inputs.length →
      DiscreteContactCheckTask.fromConfig name config =
        .error "DiscreteContactCheckTask, config 'inputs' entry currently only supports one input key") ∧
    (config.inputs.length = 1 →
      DiscreteContactCheckTask.fromConfig name config =
        .ok { name := name, is_conditional := config.conditional,
              input_keys := config.inputs }) := by
  refine ⟨fun h => ?_, fun h => ?_, fun h => ?_⟩
  · simp [DiscreteContactCheckTask.fromConfig, h]
  · have h1 : config.inputs.isEmpty = false := by
      cases hc : config.inputs with
      | nil => rw [hc] at h; simp at h
      | cons a t => rfl
    simp [DiscreteContactCheckTask.fromConfig, h1, h]
  · cases hc : config.inputs with
    | nil => rw [hc] at h; simp at h
    | cons a t =>
      cases t with
      | nil => simp [DiscreteContactCheckTask.fromConfig, hc]
      | cons b t2 => rw [hc] at h; simp at h

/-- C5 witness: a config with no inputs, one with two inputs, and one
with exactly one input. -/
theorem fromConfig_spec_witness :
    ((⟨true, []⟩ : TaskConfig).inputs = [] ∧
      DiscreteContactCheckTask.fromConfig "t" ⟨true, []⟩ =
        .error "DiscreteContactCheckTask, config missing 'inputs' entry") ∧
    (1 < (⟨true, ["a", "b"]⟩ : TaskConfig).inputs.length ∧
      DiscreteContactCheckTask.fromConfig "t" ⟨true, ["a", "b"]⟩ =
        .error "DiscreteContactCheckTask, config 'inputs' entry currently only supports one input key") ∧
    ((⟨true, ["a"]⟩ : TaskConfig).inputs.length = 1 ∧
      DiscreteContactCheckTask.fromConfig "t" ⟨true, ["a"]⟩ =
        .ok { name := "t", is_conditional := true, input_keys := ["a"] }) :=
  ⟨⟨rfl, (fromConfig_spec "t" ⟨true, []⟩).1 rfl⟩,
   ⟨by decide, (fromConfig_spec "t" ⟨true, ["a", "b"]⟩).2.1 (by decide)⟩,
   ⟨rfl, (fromConfig_spec "t" ⟨true, ["a"]⟩).2.2 rfl⟩⟩

/-- C6 counterexample: the default constructor produces a node of this
type whose `input_keys` is empty, not a single key, and no
configuration error is raised — so "every constructed node has exactly
one input key" fails. -/
theorem default_ctor_counterexample :
    DiscreteContactCheckTask.default.input_keys = [] ∧
    DiscreteContactCheckTask.default.input_keys.length ≠ 1 :=
  ⟨rfl, by decide⟩

/-- C6 amended: every node built by the direct constructor has exactly
one input key, every node built successfully from a declarative
configuration has exactly one input key (violations fail at
construction time, per C5), while the default constructor produces a
node with zero input keys. -/
theorem input_keys_invariant (name key : String) (c : Bool)
    (config : TaskConfig) (t : DiscreteContactCheckTask)
    (h : DiscreteContactCheckTask.fromConfig name config = .ok t) :
    (DiscreteContactCheckTask.mkDirect name key c).input_keys.length = 1 ∧
    t.input_keys.length = 1 ∧
    DiscreteContactCheckTask.default.input_keys.length = 0 := by
  refine ⟨rfl, ?_, rfl⟩
  unfold DiscreteContactCheckTask.fromConfig at h
  by_cases h0 : config.inputs.isEmpty
  · simp [h0] at h
  · by_cases h1 : config.inputs.length > 1
    · simp [h0, h1] at h
    · simp [h0, h1] at h
      have h0n : config.inputs ≠ [] := by simpa [List.isEmpty_iff] using h0
      have hl : config.inputs.length = 1 := by
        have hp : 0 < config.inputs.length := List.length_pos.mpr h0n
        omega
      rw [← h]
      exact hl

/-- C6 witness: the direct constructor and a successful config
construction, at concrete inputs. -/
theorem input_keys_invariant_witness :
    DiscreteContactCheckTask.fromConfig "t" ⟨true, ["k"]⟩ =
      .ok { name := "t", is_conditional := true, input_keys := ["k"] } ∧
    ((DiscreteContactCheckTask.mkDirect "t" "k" true).input_keys.length = 1 ∧
     ({ name := "t", is_conditional := true,
        input_keys := ["k"] } : DiscreteContactCheckTask).input_keys.length = 1 ∧
     DiscreteContactCheckTask.default.input_keys.length = 0) :=
  ⟨rfl,
   input_keys_invariant "t" "k" true ⟨true, ["k"]⟩
     { name := "t", is_conditional := true, input_keys := ["k"] } rfl⟩

/-- C7: profile resolution is total (it always returns a value — it is
a function, and the result exists for every argument combination), an
empty declared profile name resolves exactly as the library-wide
default name does, and a name absent from the registry yields the
default-constructed profile instead of an error. -/
theorem resolve_total (nodeName : String) (remap : RemapTable)
    (registry : Registry)
    (ov : Option (ContactCheckProfile → ContactCheckProfile)) :
    (∀ declared, ∃ pr, resolveS nodeName declared remap registry ov = pr) ∧
    (resolveS nodeName "" remap registry ov =
      resolveS nodeName defaultProfileName remap registry ov) ∧
    (∀ key, regLookup nodeName key registry = none →
      getProfile nodeName key registry ContactCheckProfile.default =
        ContactCheckProfile.default) := by
  refine ⟨fun d => ⟨_, rfl⟩, rfl, fun key h => ?_⟩
  simp [getProfile, h]

/-- C7 witness: the sample registry; key "missing" is not registered
and falls back to the default profile. -/
theorem resolve_total_witness :
    (∃ pr, resolveS "t" "p" [] sampleRegistry none = pr) ∧
    (resolveS "t" "" [] sampleRegistry none =
      resolveS "t" defaultProfileName [] sampleRegistry none) ∧
    (regLookup "t" "missing" sampleRegistry = none ∧
     getProfile "t" "missing" sampleRegistry ContactCheckProfile.default =
       ContactCheckProfile.default) :=
  ⟨(resolve_total "t" [] sampleRegistry none).1 "p",
   (resolve_total "t" [] sampleRegistry none).2.1,
   by decide,
   (resolve_total "t" [] sampleRegistry none).2.2 "missing" (by decide)⟩

/-- C8: when an override function is present, resolution produces the
override applied to the base profile taken from the registry, and the
registry it hands back is unchanged — every later lookup in it sees
the original stored entry (copy-then-override, no mutation leak). -/
theorem resolve_override_no_mutation (nodeName declared : String)
    (remap : RemapTable) (registry : Registry)
    (f : ContactCheckProfile → ContactCheckProfile)
    (ov : Option (ContactCheckProfile → ContactCheckProfile))
    (h : ov = some f) :
    (resolveS nodeName declared remap registry ov).1 =
      f (getProfile nodeName (getProfileString nodeName declared remap)
          registry ContactCheckProfile.default) ∧
    (resolveS nodeName declared remap registry ov).2 = registry ∧
    ∀ key, regLookup nodeName key (resolveS nodeName declared remap registry ov).2 =
      regLookup nodeName key registry := by
  subst h
  exact ⟨rfl, rfl, fun _ => rfl⟩

/-- C8 witness: the sample registry and the sample override; the
effective profile carries the overridden field while the registry
still holds the base entry. -/
theorem resolve_override_no_mutation_witness :
    (some sampleOverride = some sampleOverride) ∧
    ((resolveS "t" "p" [] sampleRegistry (some sampleOverride)).1 =
      sampleOverride (getProfile "t" (getProfileString "t" "p" [])
        sampleRegistry ContactCheckProfile.default) ∧
     (resolveS "t" "p" [] sampleRegistry (some sampleOverride)).2 =
       sampleRegistry ∧
     ∀ key, regLookup "t" key
        (resolveS "t" "p" [] sampleRegistry (some sampleOverride)).2 =
       regLookup "t" key sampleRegistry) ∧
    (resolveS "t" "p" [] sampleRegistry
        (some sampleOverride)).1.config.contact_manager_config = "override" ∧
    regLookup "t" "p" (resolveS "t" "p" [] sampleRegistry
        (some sampleOverride)).2 =
      some { config := { contact_manager_config := "base",
                         longest_valid_segment_length := 1/10 } } :=
  ⟨rfl,
   resolve_override_no_mutation "t" "p" [] sampleRegistry sampleOverride
     (some sampleOverride) rfl,
   rfl, rfl⟩

/-- C9: node equality is structural — `operator==` returns true
exactly when the two nodes agree on (name, is_conditional,
input_keys), which for this node type is exactly when the nodes are
equal as values (they hold no runtime results), and `operator!=` is
the negation of `operator==`. -/
theorem task_beq_structural (a b : DiscreteContactCheckTask) :
    (DiscreteContactCheckTask.beq a b = true ↔
      a.name = b.name ∧ a.is_conditional = b.is_conditional ∧
        a.input_keys = b.input_keys) ∧
    (DiscreteContactCheckTask.beq a b = true ↔ a = b) ∧
    DiscreteContactCheckTask.bne a b = !(DiscreteContactCheckTask.beq a b) := by
  refine ⟨?_, ?_, rfl⟩
  · simp [DiscreteContactCheckTask.beq, and_assoc]
  · cases a
    cases b
    simp [DiscreteContactCheckTask.beq, and_assoc]

/-- C10: two reports whose base-class fields are equal compare equal
under `DiscreteContactCheckTaskInfo::operator==` even when their
contact payloads differ — the payload comparison is commented out in
the source. -/
theorem info_beq_ignores_contact_results (a b : DiscreteContactCheckTaskInfo)
    (h : a.toTaskComposerNodeInfo = b.toTaskComposerNodeInfo) :
    DiscreteContactCheckTaskInfo.beq a b = true ∧
    DiscreteContactCheckTaskInfo.bne a b = false := by
  have hb : DiscreteContactCheckTaskInfo.beq a b = true := by
    simp [DiscreteContactCheckTaskInfo.beq, DiscreteContactCheckTaskInfo.baseBeq, h]
  exact ⟨hb, by simp [DiscreteContactCheckTaskInfo.bne, hb]⟩

/-- C10 witness: two concrete reports with identical base fields,
one with an empty and one with a non-empty contact payload. -/
theorem info_beq_ignores_contact_results_witness :
    (sampleInfoA.toTaskComposerNodeInfo = sampleInfoB.toTaskComposerNodeInfo ∧
     sampleInfoA.contact_results ≠ sampleInfoB.contact_results) ∧
    (DiscreteContactCheckTaskInfo.beq sampleInfoA sampleInfoB = true ∧
     DiscreteContactCheckTaskInfo.bne sampleInfoA sampleInfoB = false) :=
  ⟨⟨rfl, by decide⟩,
    info_beq_ignores_contact_results sampleInfoA sampleInfoB rfl⟩

end TesseractPlanning
